import Mathlib

/-!
Shallow embedding of the pydantic record-validation models in
`src/ex0/space_station.py`, `src/ex1/alien_contact.py` and
`src/ex2/space_crew.py`, together with proofs of the spec's testable
properties.

Modelling choices:
* Raw input records are structures of `Option`-typed fields: `none` models an
  absent field.  The coercion layer (ISO-8601 strings to datetime, etc.) is
  modelled as identity on canonical values; datetimes are canonical instants
  (`Nat`).
* Python floats are modelled as `ℚ` (the spec fixes real-number division
  semantics for the percentage rule).
* pydantic field validation collects one error per failing constraint across
  all fields; a `model_validator(mode := after)` runs only when there are no
  field errors and raises `ValueError` at the first failing business rule.
-/

namespace PyValidate

/-- Python `str.startswith`: a literal character-prefix test. -/
def pyStartsWith (s p : String) : Bool := p.data.isPrefixOf s.data

/-- The kinds of bound violations of the error taxonomy. -/
inductive BoundKind
  | min
  | max
  | length
  | pattern
  | membership
  deriving DecidableEq, Repr

/-- The error taxonomy of the validation engine. -/
inductive ErrKind
  | missingRequiredField
  | typeCoercionFailure
  | boundViolation (k : BoundKind)
  | businessRuleViolation (msg : String)
  deriving DecidableEq, Repr

/-- A validation error: a field path plus the kind of failure. -/
structure ValidationError where
  path : String
  kind : ErrKind
  deriving DecidableEq, Repr

/-- Whether an error is a cross-field (business rule) violation. -/
def ErrKind.isRule : ErrKind → Bool
  | .businessRuleViolation _ => true
  | _ => false

/-- Field check for a required string field with length bounds
(`Field(..., min_length, max_length)`). -/
def checkRequiredStr (path : String) (v : Option String) (minL maxL : Nat) :
    List ValidationError :=
  match v with
  | none => [⟨path, .missingRequiredField⟩]
  | some s =>
      (if s.length < minL then [⟨path, .boundViolation .length⟩] else []) ++
      (if maxL < s.length then [⟨path, .boundViolation .length⟩] else [])

/-- Field check for a required integer field with `ge`/`le` bounds. -/
def checkRequiredInt (path : String) (v : Option Int) (lo hi : Int) :
    List ValidationError :=
  match v with
  | none => [⟨path, .missingRequiredField⟩]
  | some n =>
      (if n < lo then [⟨path, .boundViolation .min⟩] else []) ++
      (if hi < n then [⟨path, .boundViolation .max⟩] else [])

/-- Field check for a required float field with `ge`/`le` bounds. -/
def checkRequiredRat (path : String) (v : Option ℚ) (lo hi : ℚ) :
    List ValidationError :=
  match v with
  | none => [⟨path, .missingRequiredField⟩]
  | some q =>
      (if q < lo then [⟨path, .boundViolation .min⟩] else []) ++
      (if hi < q then [⟨path, .boundViolation .max⟩] else [])

/-- Field check for a required field with no bound (datetime, enum): only
presence is checked (the enum/datetime coercion is identity on canonical
values here). -/
def checkRequiredPresent {α : Type} (path : String) (v : Option α) :
    List ValidationError :=
  match v with
  | none => [⟨path, .missingRequiredField⟩]
  | some _ => []

/-- Field check for an optional string field with a maximum length
(`Field(None, max_length)`). -/
def checkOptionalStrMax (path : String) (v : Option String) (maxL : Nat) :
    List ValidationError :=
  match v with
  | none => []
  | some s => if maxL < s.length then [⟨path, .boundViolation .length⟩] else []

/-! ## ex0: `SpaceStation` (`src/ex0/space_station.py`) -/

/-- Raw input for a `SpaceStation`; `none` is an absent field. -/
structure SpaceStationInput where
  station_id : Option String
  name : Option String
  crew_size : Option Int
  power_level : Option ℚ
  oxygen_level : Option ℚ
  last_maintenance : Option Nat
  is_operational : Option Bool
  notes : Option String
  deriving DecidableEq, Repr

/-- A validated `SpaceStation` record. -/
structure SpaceStation where
  station_id : String
  name : String
  crew_size : Int
  power_level : ℚ
  oxygen_level : ℚ
  last_maintenance : Nat
  is_operational : Bool
  notes : Option String
  deriving DecidableEq, Repr

/-- All field-constraint errors of a raw `SpaceStation` input, in schema
order, collected across every field. -/
def SpaceStation.fieldErrors (i : SpaceStationInput) : List ValidationError :=
  checkRequiredStr "station_id" i.station_id 3 10 ++
  checkRequiredStr "name" i.name 1 50 ++
  checkRequiredInt "crew_size" i.crew_size 1 20 ++
  checkRequiredRat "power_level" i.power_level 0 100 ++
  checkRequiredRat "oxygen_level" i.oxygen_level 0 100 ++
  checkRequiredPresent "last_maintenance" i.last_maintenance ++
  checkOptionalStrMax "notes" i.notes 200

/-- Build the typed record from a raw input when every required field is
present, applying the declared defaults (`is_operational = True`). -/
def SpaceStation.coerce (i : SpaceStationInput) : Option SpaceStation :=
  match i.station_id, i.name, i.crew_size, i.power_level, i.oxygen_level,
      i.last_maintenance with
  | some a, some b, some c, some d, some e, some f =>
      some ⟨a, b, c, d, e, f, i.is_operational.getD true, i.notes⟩
  | _, _, _, _, _, _ => none

/-- Validation of a raw `SpaceStation` input (this model has no cross-field
rules). -/
def SpaceStation.validate (i : SpaceStationInput) :
    Except (List ValidationError) SpaceStation :=
  if (SpaceStation.fieldErrors i).isEmpty then
    match SpaceStation.coerce i with
    | some r => .ok r
    | none => .error (SpaceStation.fieldErrors i)
  else .error (SpaceStation.fieldErrors i)

/-! ## ex1: `AlienContact` (`src/ex1/alien_contact.py`) -/

/-- The `ContactType` enum. -/
inductive ContactType
  | radio
  | visual
  | physical
  | telepathic
  deriving DecidableEq, Repr

/-- Raw input for an `AlienContact`; `none` is an absent field. -/
structure AlienContactInput where
  contact_id : Option String
  timestamp : Option Nat
  location : Option String
  contact_type : Option ContactType
  signal_strength : Option ℚ
  duration_minutes : Option Int
  witness_count : Option Int
  message_received : Option String
  is_verified : Option Bool
  deriving DecidableEq, Repr

/-- A validated `AlienContact` record. -/
structure AlienContact where
  contact_id : String
  timestamp : Nat
  location : String
  contact_type : ContactType
  signal_strength : ℚ
  duration_minutes : Int
  witness_count : Int
  message_received : Option String
  is_verified : Bool
  deriving DecidableEq, Repr

/-- All field-constraint errors of a raw `AlienContact` input, in schema
order, collected across every field. -/
def AlienContact.fieldErrors (i : AlienContactInput) : List ValidationError :=
  checkRequiredStr "contact_id" i.contact_id 5 15 ++
  checkRequiredPresent "timestamp" i.timestamp ++
  checkRequiredStr "location" i.location 3 100 ++
  checkRequiredPresent "contact_type" i.contact_type ++
  checkRequiredRat "signal_strength" i.signal_strength 0 10 ++
  checkRequiredInt "duration_minutes" i.duration_minutes 1 1440 ++
  checkRequiredInt "witness_count" i.witness_count 1 100 ++
  checkOptionalStrMax "message_received" i.message_received 500

/-- Build the typed record from a raw input when every required field is
present, applying the declared defaults (`is_verified = False`). -/
def AlienContact.coerce (i : AlienContactInput) : Option AlienContact :=
  match i.contact_id, i.timestamp, i.location, i.contact_type,
      i.signal_strength, i.duration_minutes, i.witness_count with
  | some a, some b, some c, some d, some e, some f, some g =>
      some ⟨a, b, c, d, e, f, g, i.message_received, i.is_verified.getD false⟩
  | _, _, _, _, _, _, _ => none

/-- The `validate_rules` model validator of `AlienContact`: the rules are
checked in declaration order and the first failing one raises `ValueError`,
which surfaces as a single `BusinessRuleViolation`. -/
def AlienContact.validate_rules (r : AlienContact) :
    Except ValidationError AlienContact :=
  if ¬ pyStartsWith r.contact_id "AC" then
    .error ⟨"", .businessRuleViolation "Contact ID must start with AC"⟩
  else if r.contact_type = ContactType.physical ∧ r.is_verified = false then
    .error ⟨"", .businessRuleViolation "Physical contact reports must be verified"⟩
  else if r.contact_type = ContactType.telepathic ∧ r.witness_count < 3 then
    .error ⟨"", .businessRuleViolation "Telepathic contact requires at least 3 witnesses"⟩
  else if r.signal_strength > 7 ∧ r.message_received = none then
    .error ⟨"", .businessRuleViolation "Strong signals (> 7.0) should include received messages"⟩
  else .ok r

/-- Validation of a raw `AlienContact` input: field errors are collected
across all fields; the cross-field rules run only when no field failed. -/
def AlienContact.validate (i : AlienContactInput) :
    Except (List ValidationError) AlienContact :=
  if (AlienContact.fieldErrors i).isEmpty then
    match AlienContact.coerce i with
    | some r =>
        match AlienContact.validate_rules r with
        | .ok r2 => .ok r2
        | .error e => .error [e]
    | none => .error (AlienContact.fieldErrors i)
  else .error (AlienContact.fieldErrors i)

/-! ## ex2: `CrewMember` and `SpaceMission` (`src/ex2/space_crew.py`) -/

/-- The `Rank` enum. -/
inductive Rank
  | cadet
  | officer
  | lieutenant
  | captain
  | commander
  deriving DecidableEq, Repr

/-- Raw input for a `CrewMember`; `none` is an absent field. -/
structure CrewMemberInput where
  member_id : Option String
  name : Option String
  rank : Option Rank
  age : Option Int
  specialization : Option String
  years_experience : Option Int
  is_active : Option Bool
  deriving DecidableEq, Repr

/-- A validated `CrewMember` record. -/
structure CrewMember where
  member_id : String
  name : String
  rank : Rank
  age : Int
  specialization : String
  years_experience : Int
  is_active : Bool
  deriving DecidableEq, Repr

/-- All field-constraint errors of a raw `CrewMember` input, in schema order,
collected across every field. -/
def CrewMember.fieldErrors (i : CrewMemberInput) : List ValidationError :=
  checkRequiredStr "member_id" i.member_id 3 10 ++
  checkRequiredStr "name" i.name 2 50 ++
  checkRequiredPresent "rank" i.rank ++
  checkRequiredInt "age" i.age 18 80 ++
  checkRequiredStr "specialization" i.specialization 3 30 ++
  checkRequiredInt "years_experience" i.years_experience 0 50

/-- Build the typed crew member from a raw input when every required field is
present, applying the declared defaults (`is_active = True`). -/
def CrewMember.coerce (i : CrewMemberInput) : Option CrewMember :=
  match i.member_id, i.name, i.rank, i.age, i.specialization,
      i.years_experience with
  | some a, some b, some c, some d, some e, some f =>
      some ⟨a, b, c, d, e, f, i.is_active.getD true⟩
  | _, _, _, _, _, _ => none

/-- Re-path a child error with the parent list field name and element index
(dot/index notation, e.g. `crew[1].years_experience`). -/
def rePathCrew (idx : Nat) (e : ValidationError) : ValidationError :=
  ⟨"crew[" ++ toString idx ++ "]." ++ e.path, e.kind⟩

/-- Field errors of the crew elements starting at index `k`, each element
validated against the child schema and its errors re-pathed with the index. -/
def crewErrorsFrom (k : Nat) : List CrewMemberInput → List ValidationError
  | [] => []
  | c :: cs => (CrewMember.fieldErrors c).map (rePathCrew k) ++ crewErrorsFrom (k + 1) cs

/-- Field check of the `crew` list field: presence, the list length bounds
(`min_length = 1`, `max_length = 12`), and the per-element child validation. -/
def checkCrewList (v : Option (List CrewMemberInput)) : List ValidationError :=
  match v with
  | none => [⟨"crew", .missingRequiredField⟩]
  | some cs =>
      (if cs.length < 1 then [⟨"crew", .boundViolation .length⟩] else []) ++
      (if 12 < cs.length then [⟨"crew", .boundViolation .length⟩] else []) ++
      crewErrorsFrom 0 cs

/-- Coerce every crew element in order; `none` if any element is incomplete. -/
def coerceCrew : List CrewMemberInput → Option (List CrewMember)
  | [] => some []
  | c :: cs =>
      match CrewMember.coerce c, coerceCrew cs with
      | some r, some rs => some (r :: rs)
      | _, _ => none

/-- Raw input for a `SpaceMission`; `none` is an absent field. -/
structure SpaceMissionInput where
  mission_id : Option String
  mission_name : Option String
  destination : Option String
  launch_date : Option Nat
  duration_days : Option Int
  crew : Option (List CrewMemberInput)
  mission_status : Option String
  budget_millions : Option ℚ
  deriving DecidableEq, Repr

/-- A validated `SpaceMission` record. -/
structure SpaceMission where
  mission_id : String
  mission_name : String
  destination : String
  launch_date : Nat
  duration_days : Int
  crew : List CrewMember
  mission_status : String
  budget_millions : ℚ
  deriving DecidableEq, Repr

/-- All field-constraint errors of a raw `SpaceMission` input, in schema
order, collected across every field, with the crew element errors re-pathed
and merged in. -/
def SpaceMission.fieldErrors (i : SpaceMissionInput) : List ValidationError :=
  checkRequiredStr "mission_id" i.mission_id 5 15 ++
  checkRequiredStr "mission_name" i.mission_name 3 100 ++
  checkRequiredStr "destination" i.destination 3 50 ++
  checkRequiredPresent "launch_date" i.launch_date ++
  checkRequiredInt "duration_days" i.duration_days 1 3650 ++
  checkCrewList i.crew ++
  checkRequiredRat "budget_millions" i.budget_millions 1 10000

/-- Build the typed mission from a raw input when every required field is
present and every crew element coerces, applying the declared defaults
(`mission_status = "planned"`). -/
def SpaceMission.coerce (i : SpaceMissionInput) : Option SpaceMission :=
  match i.mission_id, i.mission_name, i.destination, i.launch_date,
      i.duration_days, i.crew, i.budget_millions with
  | some a, some b, some c, some d, some e, some cs, some g =>
      (coerceCrew cs).map (fun crew => ⟨a, b, c, d, e, crew, i.mission_status.getD "planned", g⟩)
  | _, _, _, _, _, _, _ => none

/-- The `validate_rules` model validator of `SpaceMission`: the rules are
checked in declaration order and the first failing one raises `ValueError`.
The experience rule counts crew with `years_experience >= 5` and compares
`count / len(crew) * 100 < 50` with real-number division. -/
def SpaceMission.validate_rules (m : SpaceMission) :
    Except ValidationError SpaceMission :=
  if ¬ pyStartsWith m.mission_id "M" then
    .error ⟨"", .businessRuleViolation "Mission ID must start with 'M'"⟩
  else if ¬ m.crew.any (fun c => decide (c.rank = Rank.captain ∨ c.rank = Rank.commander)) then
    .error ⟨"", .businessRuleViolation "Mission must have at least one Commander or Captain"⟩
  else if 365 < m.duration_days ∧
      ((m.crew.countP (fun c => decide (5 ≤ c.years_experience)) : ℚ) / (m.crew.length : ℚ) * 100 < 50) then
    .error ⟨"", .businessRuleViolation "Long missions (> 365 days) need 50%experienced crew (5+ years)"⟩
  else if ¬ m.crew.all (fun c => c.is_active) then
    .error ⟨"", .businessRuleViolation "All crew members must be active"⟩
  else .ok m

/-- Validation of a raw `SpaceMission` input: field errors (including the
re-pathed crew element errors) are collected across all fields; the
cross-field rules run only when no field failed. -/
def SpaceMission.validate (i : SpaceMissionInput) :
    Except (List ValidationError) SpaceMission :=
  if (SpaceMission.fieldErrors i).isEmpty then
    match SpaceMission.coerce i with
    | some m =>
        match SpaceMission.validate_rules m with
        | .ok m2 => .ok m2
        | .error e => .error [e]
    | none => .error (SpaceMission.fieldErrors i)
  else .error (SpaceMission.fieldErrors i)

/-! ## Declarative statements of the schemas' constraints and rules -/

/-- The declared field constraints of the `AlienContact` schema, stated
declaratively on the typed record. -/
def AlienContact.fieldOk (r : AlienContact) : Prop :=
  5 ≤ r.contact_id.length ∧ r.contact_id.length ≤ 15 ∧
  3 ≤ r.location.length ∧ r.location.length ≤ 100 ∧
  0 ≤ r.signal_strength ∧ r.signal_strength ≤ 10 ∧
  1 ≤ r.duration_minutes ∧ r.duration_minutes ≤ 1440 ∧
  1 ≤ r.witness_count ∧ r.witness_count ≤ 100 ∧
  (∀ s, r.message_received = some s → s.length ≤ 500)

/-- The cross-field rules of the `AlienContact` schema, stated declaratively
on the typed record. -/
def AlienContact.rulesOk (r : AlienContact) : Prop :=
  pyStartsWith r.contact_id "AC" = true ∧
  (r.contact_type = ContactType.physical → r.is_verified = true) ∧
  (r.contact_type = ContactType.telepathic → 3 ≤ r.witness_count) ∧
  (7 < r.signal_strength → r.message_received ≠ none)

/-- The canonical raw value of a validated `AlienContact`: every field is
present, round-tripped through the (identity) coercion layer. -/
def AlienContact.toRaw (r : AlienContact) : AlienContactInput :=
  ⟨some r.contact_id, some r.timestamp, some r.location, some r.contact_type,
   some r.signal_strength, some r.duration_minutes, some r.witness_count,
   r.message_received, some r.is_verified⟩

/-- The declared field constraints of the `CrewMember` schema, stated
declaratively on the typed record. -/
def CrewMember.fieldOk (c : CrewMember) : Prop :=
  3 ≤ c.member_id.length ∧ c.member_id.length ≤ 10 ∧
  2 ≤ c.name.length ∧ c.name.length ≤ 50 ∧
  18 ≤ c.age ∧ c.age ≤ 80 ∧
  3 ≤ c.specialization.length ∧ c.specialization.length ≤ 30 ∧
  0 ≤ c.years_experience ∧ c.years_experience ≤ 50

/-- The declared field constraints of the `SpaceMission` schema, stated
declaratively on the typed record (including the nested crew). -/
def SpaceMission.fieldOk (m : SpaceMission) : Prop :=
  5 ≤ m.mission_id.length ∧ m.mission_id.length ≤ 15 ∧
  3 ≤ m.mission_name.length ∧ m.mission_name.length ≤ 100 ∧
  3 ≤ m.destination.length ∧ m.destination.length ≤ 50 ∧
  1 ≤ m.duration_days ∧ m.duration_days ≤ 3650 ∧
  1 ≤ m.crew.length ∧ m.crew.length ≤ 12 ∧
  (∀ c ∈ m.crew, CrewMember.fieldOk c) ∧
  1 ≤ m.budget_millions ∧ m.budget_millions ≤ 10000

/-- The cross-field rules of the `SpaceMission` schema, stated declaratively
on the typed record. -/
def SpaceMission.rulesOk (m : SpaceMission) : Prop :=
  pyStartsWith m.mission_id "M" = true ∧
  (∃ c ∈ m.crew, c.rank = Rank.captain ∨ c.rank = Rank.commander) ∧
  (365 < m.duration_days →
    50 ≤ (m.crew.countP (fun c => decide (5 ≤ c.years_experience)) : ℚ) / (m.crew.length : ℚ) * 100) ∧
  (∀ c ∈ m.crew, c.is_active = true)

/-! ## Concrete example inputs -/

/-- The valid contact report built in `main` of `src/ex1/alien_contact.py`. -/
def validContact : AlienContactInput :=
  ⟨some "AC_2024_001", some 0, some "Area 51, Nevada", some ContactType.radio,
   some 8.5, some 45, some 5, some "Greetings from Zeta Reticuli", none⟩

/-- The coerced record of `validContact`. -/
def validContactRec : AlienContact :=
  ⟨"AC_2024_001", 0, "Area 51, Nevada", ContactType.radio, 8.5, 45, 5,
   some "Greetings from Zeta Reticuli", false⟩

/-- A contact whose identifier `AC2024_001` has no separator after the `AC`
literal prefix. -/
def contactNoSep : AlienContactInput :=
  ⟨some "AC2024_001", some 0, some "Area 51, Nevada", some ContactType.radio,
   some 8.5, some 45, some 5, some "Greetings from Zeta Reticuli", none⟩

/-- The coerced record of `contactNoSep`. -/
def contactNoSepRec : AlienContact :=
  ⟨"AC2024_001", 0, "Area 51, Nevada", ContactType.radio, 8.5, 45, 5,
   some "Greetings from Zeta Reticuli", false⟩

/-- A field-valid contact violating three business rules at once: the
prefix rule, the physical-verified rule and the strong-signal rule. -/
def contactThreeViolations : AlienContactInput :=
  ⟨some "XX2024_001", some 0, some "Area 51, Nevada", some ContactType.physical,
   some 8.5, some 45, some 5, none, none⟩

/-- The coerced record of `contactThreeViolations`. -/
def contactThreeViolationsRec : AlienContact :=
  ⟨"XX2024_001", 0, "Area 51, Nevada", ContactType.physical, 8.5, 45, 5, none, false⟩

/-- A raw contact input with every field absent. -/
def emptyContact : AlienContactInput := ⟨none, none, none, none, none, none, none, none, none⟩

/-- A crew member with 9 years of experience and the `commander` rank. -/
def sarah : CrewMemberInput :=
  ⟨some "S001", some "Sarah Connor", some Rank.commander, some 27, some "Mission Command", some 9, none⟩

/-- A crew member with 3 years of experience. -/
def alice : CrewMemberInput :=
  ⟨some "A001", some "Alice Johnson", some Rank.officer, some 21, some "Engineering", some 3, none⟩

/-- A crew member with 2 years of experience. -/
def bob : CrewMemberInput :=
  ⟨some "B001", some "Bob Stone", some Rank.cadet, some 25, some "Navigation", some 2, none⟩

/-- A crew member with the `captain` rank but only 3 years of experience. -/
def cara : CrewMemberInput :=
  ⟨some "C001", some "Cara Vel", some Rank.captain, some 30, some "Command", some 3, none⟩

/-- A 900-day mission whose crew has exactly 1 of 3 members with at least
5 years of experience. -/
def longMission : SpaceMissionInput :=
  ⟨some "M2024_MARS", some "Mars Colony Establishment", some "Mars", some 0,
   some 900, some [sarah, alice, bob], none, some 2500⟩

/-- The coerced record of `longMission`. -/
def longMissionRec : SpaceMission :=
  ⟨"M2024_MARS", "Mars Colony Establishment", "Mars", 0, 900,
   [⟨"S001", "Sarah Connor", Rank.commander, 27, "Mission Command", 9, true⟩,
    ⟨"A001", "Alice Johnson", Rank.officer, 21, "Engineering", 3, true⟩,
    ⟨"B001", "Bob Stone", Rank.cadet, 25, "Navigation", 2, true⟩],
   "planned", 2500⟩

/-- A boundary mission of exactly 365 days whose crew has nobody with at
least 5 years of experience. -/
def shortMission : SpaceMissionInput :=
  ⟨some "M2024_LUNA", some "Lunar Relay", some "Moon", some 0,
   some 365, some [cara, alice, bob], none, some 800⟩

/-- The coerced record of `shortMission`. -/
def shortMissionRec : SpaceMission :=
  ⟨"M2024_LUNA", "Lunar Relay", "Moon", 0, 365,
   [⟨"C001", "Cara Vel", Rank.captain, 30, "Command", 3, true⟩,
    ⟨"A001", "Alice Johnson", Rank.officer, 21, "Engineering", 3, true⟩,
    ⟨"B001", "Bob Stone", Rank.cadet, 25, "Navigation", 2, true⟩],
   "planned", 800⟩

/-! ## Characterisations of the field checkers -/

theorem checkRequiredStr_none (p : String) (lo hi : Nat) :
    checkRequiredStr p none lo hi = [⟨p, .missingRequiredField⟩] := rfl

theorem checkRequiredStr_eq_nil (p : String) (s : String) (lo hi : Nat) :
    checkRequiredStr p (some s) lo hi = [] ↔ lo ≤ s.length ∧ s.length ≤ hi := by
  by_cases h1 : s.length < lo <;> by_cases h2 : hi < s.length <;>
    simp [checkRequiredStr, h1, h2] <;> omega

theorem checkRequiredInt_none (p : String) (lo hi : Int) :
    checkRequiredInt p none lo hi = [⟨p, .missingRequiredField⟩] := rfl

theorem checkRequiredInt_eq_nil (p : String) (n : Int) (lo hi : Int) :
    checkRequiredInt p (some n) lo hi = [] ↔ lo ≤ n ∧ n ≤ hi := by
  by_cases h1 : n < lo <;> by_cases h2 : hi < n <;>
    simp [checkRequiredInt, h1, h2] <;> omega

theorem checkRequiredRat_none (p : String) (lo hi : ℚ) :
    checkRequiredRat p none lo hi = [⟨p, .missingRequiredField⟩] := rfl

theorem checkRequiredRat_eq_nil (p : String) (q : ℚ) (lo hi : ℚ) :
    checkRequiredRat p (some q) lo hi = [] ↔ lo ≤ q ∧ q ≤ hi := by
  simp only [checkRequiredRat, List.append_eq_nil, ite_eq_right_iff,
    List.cons_ne_nil, imp_false, not_lt]

theorem checkRequiredPresent_none {α : Type} (p : String) :
    checkRequiredPresent p (none : Option α) = [⟨p, .missingRequiredField⟩] := rfl

theorem checkRequiredPresent_some {α : Type} (p : String) (a : α) :
    checkRequiredPresent p (some a) = [] := rfl

theorem checkOptionalStrMax_eq_nil (p : String) (v : Option String) (maxL : Nat) :
    checkOptionalStrMax p v maxL = [] ↔ ∀ s, v = some s → s.length ≤ maxL := by
  cases v with
  | none => simp [checkOptionalStrMax]
  | some s =>
      by_cases h : maxL < s.length <;> simp [checkOptionalStrMax, h] <;> omega

/-- Every error emitted by a field checker is a field-level error, never a
business-rule violation. -/
theorem checkRequiredStr_no_rule (p : String) (v : Option String) (lo hi : Nat)
    (e : ValidationError) (h : e ∈ checkRequiredStr p v lo hi) :
    e.kind.isRule = false := by
  cases v with
  | none => simp [checkRequiredStr] at h; subst h; rfl
  | some s =>
      simp only [checkRequiredStr, List.mem_append] at h
      rcases h with h | h <;> split at h <;>
        simp_all [ErrKind.isRule]

theorem checkRequiredInt_no_rule (p : String) (v : Option Int) (lo hi : Int)
    (e : ValidationError) (h : e ∈ checkRequiredInt p v lo hi) :
    e.kind.isRule = false := by
  cases v with
  | none => simp [checkRequiredInt] at h; subst h; rfl
  | some n =>
      simp only [checkRequiredInt, List.mem_append] at h
      rcases h with h | h <;> split at h <;>
        simp_all [ErrKind.isRule]

theorem checkRequiredRat_no_rule (p : String) (v : Option ℚ) (lo hi : ℚ)
    (e : ValidationError) (h : e ∈ checkRequiredRat p v lo hi) :
    e.kind.isRule = false := by
  cases v with
  | none => simp [checkRequiredRat] at h; subst h; rfl
  | some q =>
      simp only [checkRequiredRat, List.mem_append] at h
      rcases h with h | h <;> split at h <;>
        simp_all [ErrKind.isRule]

theorem checkRequiredPresent_no_rule {α : Type} (p : String) (v : Option α)
    (e : ValidationError) (h : e ∈ checkRequiredPresent p v) :
    e.kind.isRule = false := by
  cases v with
  | none => simp [checkRequiredPresent] at h; subst h; rfl
  | some a => simp [checkRequiredPresent] at h

theorem checkOptionalStrMax_no_rule (p : String) (v : Option String) (maxL : Nat)
    (e : ValidationError) (h : e ∈ checkOptionalStrMax p v maxL) :
    e.kind.isRule = false := by
  cases v with
  | none => simp [checkOptionalStrMax] at h
  | some s =>
      simp only [checkOptionalStrMax] at h
      split at h <;> simp_all [ErrKind.isRule]

/-! ## Structural lemmas: `AlienContact` -/

theorem AlienContact.coerce_eq_some_iff (i : AlienContactInput) (r : AlienContact) :
    AlienContact.coerce i = some r ↔
      i.contact_id = some r.contact_id ∧ i.timestamp = some r.timestamp ∧
      i.location = some r.location ∧ i.contact_type = some r.contact_type ∧
      i.signal_strength = some r.signal_strength ∧
      i.duration_minutes = some r.duration_minutes ∧
      i.witness_count = some r.witness_count ∧
      i.message_received = r.message_received ∧
      i.is_verified.getD false = r.is_verified := by
  obtain ⟨f1, f2, f3, f4, f5, f6, f7, f8, f9⟩ := i
  obtain ⟨g1, g2, g3, g4, g5, g6, g7, g8, g9⟩ := r
  cases f1 <;> cases f2 <;> cases f3 <;> cases f4 <;> cases f5 <;> cases f6 <;> cases f7 <;>
    simp_all [AlienContact.coerce, AlienContact.mk.injEq, eq_comm]

theorem AlienContact.coerce_toRaw (r : AlienContact) :
    AlienContact.coerce (AlienContact.toRaw r) = some r := rfl

theorem AlienContact.validate_rules_ok_iff (r : AlienContact) :
    AlienContact.validate_rules r = .ok r ↔ AlienContact.rulesOk r := by
  unfold AlienContact.validate_rules AlienContact.rulesOk
  split
  · rename_i h
    simp only [reduceCtorEq, false_iff]
    intro hr
    exact h (by simp [hr.1])
  · split
    · rename_i h1 h2
      simp only [reduceCtorEq, false_iff]
      intro hr
      exact absurd (hr.2.1 h2.1) (by simp [h2.2])
    · split
      · rename_i h1 h2 h3
        simp only [reduceCtorEq, false_iff]
        intro hr
        exact absurd (hr.2.2.1 h3.1) (not_le.mpr h3.2)
      · split
        · rename_i h1 h2 h3 h4
          simp only [reduceCtorEq, false_iff]
          intro hr
          exact absurd h4.2 (hr.2.2.2 h4.1)
        · rename_i h1 h2 h3 h4
          constructor
          · intro _
            refine ⟨by simpa using h1, ?_, ?_, ?_⟩
            · intro hp
              by_contra hv
              exact h2 ⟨hp, by simpa using hv⟩
            · intro ht
              by_contra hw
              exact h3 ⟨ht, by omega⟩
            · intro hs hm
              exact h4 ⟨hs, hm⟩
          · intro _
            rfl

theorem AlienContact.validate_rules_err_first (r : AlienContact)
    (h1 : pyStartsWith r.contact_id "AC" = false) :
    AlienContact.validate_rules r =
      .error ⟨"", .businessRuleViolation "Contact ID must start with AC"⟩ := by
  unfold AlienContact.validate_rules
  rw [if_pos (by simp [h1])]

theorem AlienContact.validate_rules_ok_eq (r r2 : AlienContact)
    (h : AlienContact.validate_rules r = .ok r2) : r2 = r := by
  unfold AlienContact.validate_rules at h
  repeat' split at h
  all_goals first | exact (Except.ok.inj h).symm | exact Except.noConfusion h

theorem AlienContact.validate_fieldsPass (i : AlienContactInput) (r : AlienContact)
    (hf : AlienContact.fieldErrors i = []) (hc : AlienContact.coerce i = some r) :
    AlienContact.validate i =
      match AlienContact.validate_rules r with
      | .ok r2 => .ok r2
      | .error e => .error [e] := by
  unfold AlienContact.validate
  rw [hf, hc]
  rfl

theorem AlienContact.validate_fieldsFail (i : AlienContactInput)
    (hf : AlienContact.fieldErrors i ≠ []) :
    AlienContact.validate i = .error (AlienContact.fieldErrors i) := by
  unfold AlienContact.validate
  rw [if_neg (by simpa using hf)]

theorem AlienContact.fieldErrors_nil_iff (i : AlienContactInput) (r : AlienContact)
    (hc : AlienContact.coerce i = some r) :
    AlienContact.fieldErrors i = [] ↔ AlienContact.fieldOk r := by
  obtain ⟨h1, h2, h3, h4, h5, h6, h7, h8, _⟩ := (AlienContact.coerce_eq_some_iff i r).mp hc
  unfold AlienContact.fieldErrors AlienContact.fieldOk
  rw [h1, h2, h3, h4, h5, h6, h7, h8]
  simp only [List.append_eq_nil, checkRequiredStr_eq_nil, checkRequiredInt_eq_nil,
    checkRequiredRat_eq_nil, checkRequiredPresent_some, checkOptionalStrMax_eq_nil,
    and_true, true_and]
  tauto

theorem AlienContact.fieldErrors_no_rule (i : AlienContactInput) (e : ValidationError)
    (h : e ∈ AlienContact.fieldErrors i) : e.kind.isRule = false := by
  unfold AlienContact.fieldErrors at h
  simp only [List.mem_append] at h
  repeat' rcases h with h | h
  all_goals first
    | exact checkRequiredStr_no_rule _ _ _ _ _ h
    | exact checkRequiredPresent_no_rule _ _ _ h
    | exact checkRequiredRat_no_rule _ _ _ _ _ h
    | exact checkRequiredInt_no_rule _ _ _ _ _ h
    | exact checkOptionalStrMax_no_rule _ _ _ _ h

/-! ## Structural lemmas: `CrewMember` and `SpaceMission` -/

theorem CrewMember.coerce_eq_some_iff_member (i : CrewMemberInput) (c : CrewMember) :
    CrewMember.coerce i = some c ↔
      i.member_id = some c.member_id ∧ i.name = some c.name ∧ i.rank = some c.rank ∧
      i.age = some c.age ∧ i.specialization = some c.specialization ∧
      i.years_experience = some c.years_experience ∧ i.is_active.getD true = c.is_active := by
  obtain ⟨f1, f2, f3, f4, f5, f6, f7⟩ := i
  obtain ⟨g1, g2, g3, g4, g5, g6, g7⟩ := c
  cases f1 <;> cases f2 <;> cases f3 <;> cases f4 <;> cases f5 <;> cases f6 <;>
    simp_all [CrewMember.coerce, CrewMember.mk.injEq, eq_comm]

theorem CrewMember.fieldErrors_nil_iff_member (i : CrewMemberInput) (c : CrewMember)
    (hc : CrewMember.coerce i = some c) :
    CrewMember.fieldErrors i = [] ↔ CrewMember.fieldOk c := by
  obtain ⟨h1, h2, h3, h4, h5, h6, _⟩ := (CrewMember.coerce_eq_some_iff_member i c).mp hc
  unfold CrewMember.fieldErrors CrewMember.fieldOk
  rw [h1, h2, h3, h4, h5, h6]
  simp only [List.append_eq_nil, checkRequiredStr_eq_nil, checkRequiredInt_eq_nil,
    checkRequiredPresent_some, and_true, true_and]
  tauto

theorem coerceCrew_length (cs : List CrewMemberInput) (l : List CrewMember)
    (h : coerceCrew cs = some l) : l.length = cs.length := by
  induction cs generalizing l with
  | nil => simp [coerceCrew] at h; subst h; rfl
  | cons c cs ih =>
      unfold coerceCrew at h
      cases hc : CrewMember.coerce c <;> rw [hc] at h
      · exact absurd h (by simp)
      · cases hcs : coerceCrew cs <;> rw [hcs] at h
        · exact absurd h (by simp)
        · rename_i r rs
          injection h with h
          subst h
          simp [ih rs hcs]

theorem coerceCrew_fieldOk_iff (cs : List CrewMemberInput) (l : List CrewMember)
    (h : coerceCrew cs = some l) :
    (∀ e ∈ cs, CrewMember.fieldErrors e = []) ↔ (∀ c ∈ l, CrewMember.fieldOk c) := by
  induction cs generalizing l with
  | nil => simp [coerceCrew] at h; subst h; simp
  | cons c cs ih =>
      unfold coerceCrew at h
      cases hc : CrewMember.coerce c <;> rw [hc] at h
      · exact absurd h (by simp)
      · cases hcs : coerceCrew cs <;> rw [hcs] at h
        · exact absurd h (by simp)
        · rename_i r rs
          injection h with h
          subst h
          simp only [List.mem_cons, forall_eq_or_imp]
          rw [ih rs hcs, CrewMember.fieldErrors_nil_iff_member c r hc]

theorem crewErrorsFrom_eq_nil (k : Nat) (cs : List CrewMemberInput) :
    crewErrorsFrom k cs = [] ↔ ∀ c ∈ cs, CrewMember.fieldErrors c = [] := by
  induction cs generalizing k with
  | nil => simp [crewErrorsFrom]
  | cons c cs ih =>
      simp [crewErrorsFrom, List.append_eq_nil, ih (k + 1)]

theorem checkCrewList_some_eq_nil (cs : List CrewMemberInput) :
    checkCrewList (some cs) = [] ↔
      1 ≤ cs.length ∧ cs.length ≤ 12 ∧ ∀ c ∈ cs, CrewMember.fieldErrors c = [] := by
  unfold checkCrewList
  by_cases hl : cs.length < 1
  · simp only [hl, if_true]
    simp only [List.cons_append, reduceCtorEq, false_iff]
    rintro ⟨h1, -, -⟩
    omega
  · by_cases hh : 12 < cs.length
    · simp only [hl, if_false, hh, if_true]
      simp only [List.nil_append, List.cons_append, reduceCtorEq, false_iff]
      rintro ⟨-, h2, -⟩
      omega
    · have h1 : 1 ≤ cs.length := Nat.le_of_not_lt hl
      have h2 : cs.length ≤ 12 := Nat.le_of_not_lt hh
      simp [hl, hh, crewErrorsFrom_eq_nil, h1, h2]

theorem SpaceMission.coerce_eq_some_iff_mission (i : SpaceMissionInput) (m : SpaceMission) :
    SpaceMission.coerce i = some m ↔
      i.mission_id = some m.mission_id ∧ i.mission_name = some m.mission_name ∧
      i.destination = some m.destination ∧ i.launch_date = some m.launch_date ∧
      i.duration_days = some m.duration_days ∧
      (∃ cs, i.crew = some cs ∧ coerceCrew cs = some m.crew) ∧
      i.mission_status.getD "planned" = m.mission_status ∧
      i.budget_millions = some m.budget_millions := by
  obtain ⟨f1, f2, f3, f4, f5, f6, f7, f8⟩ := i
  obtain ⟨g1, g2, g3, g4, g5, g6, g7, g8⟩ := m
  cases f1 <;> cases f2 <;> cases f3 <;> cases f4 <;> cases f5 <;> cases f6 <;> cases f8 <;>
    simp_all [SpaceMission.coerce, SpaceMission.mk.injEq, Option.map_eq_some'] <;>
    aesop

theorem SpaceMission.fieldErrors_nil_iff_mission (i : SpaceMissionInput) (m : SpaceMission)
    (hc : SpaceMission.coerce i = some m) :
    SpaceMission.fieldErrors i = [] ↔ SpaceMission.fieldOk m := by
  obtain ⟨h1, h2, h3, h4, h5, ⟨cs, hcs, hcc⟩, -, h8⟩ :=
    (SpaceMission.coerce_eq_some_iff_mission i m).mp hc
  unfold SpaceMission.fieldErrors SpaceMission.fieldOk
  rw [h1, h2, h3, h4, h5, hcs, h8]
  have hlen := coerceCrew_length cs m.crew hcc
  have hok := coerceCrew_fieldOk_iff cs m.crew hcc
  simp only [List.append_eq_nil, checkRequiredStr_eq_nil, checkRequiredInt_eq_nil,
    checkRequiredRat_eq_nil, checkRequiredPresent_some, checkCrewList_some_eq_nil,
    and_true, true_and]
  rw [← hlen, hok]
  tauto

theorem SpaceMission.validate_rules_ok_iff_mission (m : SpaceMission) :
    SpaceMission.validate_rules m = .ok m ↔ SpaceMission.rulesOk m := by
  unfold SpaceMission.validate_rules SpaceMission.rulesOk
  split
  · rename_i h
    simp only [reduceCtorEq, false_iff]
    intro hr
    exact h (by simp [hr.1])
  · split
    · rename_i h1 h2
      simp only [reduceCtorEq, false_iff]
      intro hr
      apply h2
      obtain ⟨c, hm, hrank⟩ := hr.2.1
      simp only [List.any_eq_true, decide_eq_true_eq]
      exact ⟨c, hm, hrank⟩
    · split
      · rename_i h1 h2 h3
        simp only [reduceCtorEq, false_iff]
        intro hr
        exact absurd (hr.2.2.1 h3.1) (not_le.mpr h3.2)
      · split
        · rename_i h1 h2 h3 h4
          simp only [reduceCtorEq, false_iff]
          intro hr
          apply h4
          simp only [List.all_eq_true]
          exact fun c hm => hr.2.2.2 c hm
        · rename_i h1 h2 h3 h4
          constructor
          · intro _
            have hp := not_not.mp h1
            have hcm := not_not.mp h2
            have hac := not_not.mp h4
            refine ⟨hp, ?_, ?_, ?_⟩
            · simpa only [List.any_eq_true, decide_eq_true_eq] using hcm
            · intro hd
              exact le_of_not_lt fun hlt => h3 ⟨hd, hlt⟩
            · intro c hm
              exact (List.all_eq_true.mp hac) c hm
          · intro _
            rfl

theorem SpaceMission.validate_rules_ok_eq_mission (m m2 : SpaceMission)
    (h : SpaceMission.validate_rules m = .ok m2) : m2 = m := by
  unfold SpaceMission.validate_rules at h
  repeat' split at h
  all_goals first | exact (Except.ok.inj h).symm | exact Except.noConfusion h

theorem SpaceMission.validate_rules_err_experience (m : SpaceMission)
    (hp : pyStartsWith m.mission_id "M" = true)
    (hcm : m.crew.any (fun c => decide (c.rank = Rank.captain ∨ c.rank = Rank.commander)) = true)
    (hd : 365 < m.duration_days)
    (hpct : (m.crew.countP (fun c => decide (5 ≤ c.years_experience)) : ℚ) / (m.crew.length : ℚ) * 100 < 50) :
    SpaceMission.validate_rules m =
      .error ⟨"", .businessRuleViolation "Long missions (> 365 days) need 50%experienced crew (5+ years)"⟩ := by
  unfold SpaceMission.validate_rules
  rw [if_neg (not_not_intro hp), if_neg (not_not_intro hcm), if_pos ⟨hd, hpct⟩]

theorem SpaceMission.validate_fieldsPass_mission (i : SpaceMissionInput) (m : SpaceMission)
    (hf : SpaceMission.fieldErrors i = []) (hc : SpaceMission.coerce i = some m) :
    SpaceMission.validate i =
      match SpaceMission.validate_rules m with
      | .ok m2 => .ok m2
      | .error e => .error [e] := by
  unfold SpaceMission.validate
  rw [hf, hc]
  rfl

theorem SpaceMission.validate_fieldsFail_mission (i : SpaceMissionInput)
    (hf : SpaceMission.fieldErrors i ≠ []) :
    SpaceMission.validate i = .error (SpaceMission.fieldErrors i) := by
  unfold SpaceMission.validate
  rw [if_neg (by simpa using hf)]

/-! ## Further structural lemmas and concrete evaluations -/

theorem SpaceStation.validate_fieldsFail_station (i : SpaceStationInput)
    (hf : SpaceStation.fieldErrors i ≠ []) :
    SpaceStation.validate i = .error (SpaceStation.fieldErrors i) := by
  unfold SpaceStation.validate
  rw [if_neg (by simpa using hf)]

theorem AlienContact.validate_ok_inv (i : AlienContactInput) (r : AlienContact)
    (h : AlienContact.validate i = .ok r) :
    AlienContact.fieldErrors i = [] ∧ AlienContact.coerce i = some r ∧
      AlienContact.validate_rules r = .ok r := by
  by_cases hf : AlienContact.fieldErrors i = []
  · cases hc : AlienContact.coerce i with
    | none =>
        unfold AlienContact.validate at h
        rw [if_pos (by simp [hf]), hc] at h
        simp at h
    | some r0 =>
        rw [AlienContact.validate_fieldsPass i r0 hf hc] at h
        cases hr : AlienContact.validate_rules r0 with
        | error e => rw [hr] at h; simp at h
        | ok r2 =>
            rw [hr] at h
            have h2 : r2 = r := by simpa using h
            have h3 : r2 = r0 := AlienContact.validate_rules_ok_eq r0 r2 hr
            have h4 : r0 = r := h3.symm.trans h2
            rw [h3] at hr
            refine ⟨hf, ?_, ?_⟩
            · rw [h4]
            · rw [← h4]
              exact hr
  · rw [AlienContact.validate_fieldsFail i hf] at h
    simp at h

theorem tv_fieldErrors : AlienContact.fieldErrors contactThreeViolations = [] := by
  norm_num [AlienContact.fieldErrors, contactThreeViolations, checkRequiredStr,
    checkRequiredPresent, checkRequiredRat, checkRequiredInt, checkOptionalStrMax]
  decide

theorem validContact_fieldErrors : AlienContact.fieldErrors validContact = [] := by
  norm_num [AlienContact.fieldErrors, validContact, checkRequiredStr, checkRequiredPresent,
    checkRequiredRat, checkRequiredInt, checkOptionalStrMax]
  decide

theorem validContact_ok : AlienContact.validate validContact = .ok validContactRec := by
  rw [AlienContact.validate_fieldsPass validContact validContactRec validContact_fieldErrors rfl]
  have hr : AlienContact.validate_rules validContactRec = .ok validContactRec := by
    norm_num [AlienContact.validate_rules, pyStartsWith, validContactRec]
    simp +decide
  rw [hr]

theorem validContactRec_fieldOk : AlienContact.fieldOk validContactRec := by
  norm_num [AlienContact.fieldOk, validContactRec]
  decide

theorem validContactRec_rulesOk : AlienContact.rulesOk validContactRec := by
  norm_num [AlienContact.rulesOk, validContactRec]
  decide

theorem longMission_fieldErrors : SpaceMission.fieldErrors longMission = [] := by
  norm_num [SpaceMission.fieldErrors, checkRequiredStr, checkRequiredPresent,
    checkRequiredInt, checkRequiredRat, checkCrewList, crewErrorsFrom,
    CrewMember.fieldErrors, longMission, sarah, alice, bob]
  decide

theorem shortMission_fieldErrors : SpaceMission.fieldErrors shortMission = [] := by
  norm_num [SpaceMission.fieldErrors, checkRequiredStr, checkRequiredPresent,
    checkRequiredInt, checkRequiredRat, checkCrewList, crewErrorsFrom,
    CrewMember.fieldErrors, shortMission, cara, alice, bob]
  decide

theorem shortMissionRec_fieldOk : SpaceMission.fieldOk shortMissionRec := by
  norm_num [SpaceMission.fieldOk, CrewMember.fieldOk, shortMissionRec]
  decide

theorem shortMissionRec_rulesOk : SpaceMission.rulesOk shortMissionRec := by
  norm_num [SpaceMission.rulesOk, shortMissionRec]
  decide

/-! ## The claims -/

/-- Claim C1 (corrected): the source model validators raise `ValueError` at
the FIRST failing rule, so a field-valid record violating several business
rules is reported with exactly one rule error, the first failing rule in
declaration order — not one error per failing rule. -/
theorem claim1_first_failing_rule_only (i : AlienContactInput) (r : AlienContact)
    (hf : AlienContact.fieldErrors i = []) (hc : AlienContact.coerce i = some r)
    (h1 : pyStartsWith r.contact_id "AC" = false)
    (h2 : r.contact_type = ContactType.physical ∧ r.is_verified = false)
    (h3 : 7 < r.signal_strength ∧ r.message_received = none) :
    AlienContact.validate i =
      .error [⟨"", .businessRuleViolation "Contact ID must start with AC"⟩] := by
  rw [AlienContact.validate_fieldsPass i r hf hc, AlienContact.validate_rules_err_first r h1]

/-- Witness for C1: `contactThreeViolations` is field-valid, violates the
prefix rule, the physical-verified rule and the strong-signal rule at once,
and validation reports exactly the single prefix-rule error. -/
theorem claim1_first_failing_rule_only_witness :
    AlienContact.fieldErrors contactThreeViolations = [] ∧
    AlienContact.coerce contactThreeViolations = some contactThreeViolationsRec ∧
    pyStartsWith contactThreeViolationsRec.contact_id "AC" = false ∧
    (contactThreeViolationsRec.contact_type = ContactType.physical ∧
     contactThreeViolationsRec.is_verified = false) ∧
    (7 < contactThreeViolationsRec.signal_strength ∧
     contactThreeViolationsRec.message_received = none) ∧
    AlienContact.validate contactThreeViolations =
      .error [⟨"", .businessRuleViolation "Contact ID must start with AC"⟩] :=
  ⟨tv_fieldErrors, rfl, by decide, ⟨rfl, rfl⟩, ⟨by norm_num [contactThreeViolationsRec], rfl⟩,
   claim1_first_failing_rule_only contactThreeViolations contactThreeViolationsRec
     tv_fieldErrors rfl (by decide) ⟨rfl, rfl⟩ ⟨by norm_num [contactThreeViolationsRec], rfl⟩⟩

/-- Counterexample for C1 as stated: `contactThreeViolations` is a
field-valid record violating three business rules, yet its validation
report holds exactly one rule error, not three. -/
theorem claim1_counterexample :
    AlienContact.coerce contactThreeViolations = some contactThreeViolationsRec ∧
    (pyStartsWith contactThreeViolationsRec.contact_id "AC" = false ∧
     (contactThreeViolationsRec.contact_type = ContactType.physical ∧
      contactThreeViolationsRec.is_verified = false) ∧
     (7 < contactThreeViolationsRec.signal_strength ∧
      contactThreeViolationsRec.message_received = none)) ∧
    AlienContact.validate contactThreeViolations =
      .error [⟨"", .businessRuleViolation "Contact ID must start with AC"⟩] ∧
    (∀ errs, AlienContact.validate contactThreeViolations = .error errs → errs.length = 1) := by
  have hval : AlienContact.validate contactThreeViolations =
      .error [⟨"", .businessRuleViolation "Contact ID must start with AC"⟩] := by
    rw [AlienContact.validate_fieldsPass contactThreeViolations contactThreeViolationsRec
          tv_fieldErrors rfl,
        AlienContact.validate_rules_err_first contactThreeViolationsRec (by decide)]
  refine ⟨rfl, ⟨by decide, ⟨rfl, rfl⟩, ⟨by norm_num [contactThreeViolationsRec], rfl⟩⟩, hval, ?_⟩
  intro errs h
  have h2 := hval.symm.trans h
  injection h2 with h2
  rw [← h2]
  rfl

/-- Claim C2: an input missing a required field yields an error report with
a `MissingRequiredField` error at that field's path and no
`BusinessRuleViolation` errors: the cross-field rules are never evaluated
when the field-error list is non-empty. -/
theorem claim2_missing_field_short_circuits_rules (i : AlienContactInput)
    (hmiss : i.contact_id = none ∨ i.timestamp = none ∨ i.location = none ∨
      i.contact_type = none ∨ i.signal_strength = none ∨ i.duration_minutes = none ∨
      i.witness_count = none) :
    ∃ errs, AlienContact.validate i = .error errs ∧
      (i.contact_id = none → (⟨"contact_id", .missingRequiredField⟩ : ValidationError) ∈ errs) ∧
      (i.timestamp = none → (⟨"timestamp", .missingRequiredField⟩ : ValidationError) ∈ errs) ∧
      (i.location = none → (⟨"location", .missingRequiredField⟩ : ValidationError) ∈ errs) ∧
      (i.contact_type = none → (⟨"contact_type", .missingRequiredField⟩ : ValidationError) ∈ errs) ∧
      (i.signal_strength = none → (⟨"signal_strength", .missingRequiredField⟩ : ValidationError) ∈ errs) ∧
      (i.duration_minutes = none → (⟨"duration_minutes", .missingRequiredField⟩ : ValidationError) ∈ errs) ∧
      (i.witness_count = none → (⟨"witness_count", .missingRequiredField⟩ : ValidationError) ∈ errs) ∧
      (∀ e ∈ errs, e.kind.isRule = false) := by
  have m1 : i.contact_id = none →
      (⟨"contact_id", .missingRequiredField⟩ : ValidationError) ∈ AlienContact.fieldErrors i := by
    intro h
    unfold AlienContact.fieldErrors
    simp [h, checkRequiredStr, List.mem_append]
  have m2 : i.timestamp = none →
      (⟨"timestamp", .missingRequiredField⟩ : ValidationError) ∈ AlienContact.fieldErrors i := by
    intro h
    unfold AlienContact.fieldErrors
    simp [h, checkRequiredPresent, List.mem_append]
  have m3 : i.location = none →
      (⟨"location", .missingRequiredField⟩ : ValidationError) ∈ AlienContact.fieldErrors i := by
    intro h
    unfold AlienContact.fieldErrors
    simp [h, checkRequiredStr, List.mem_append]
  have m4 : i.contact_type = none →
      (⟨"contact_type", .missingRequiredField⟩ : ValidationError) ∈ AlienContact.fieldErrors i := by
    intro h
    unfold AlienContact.fieldErrors
    simp [h, checkRequiredPresent, List.mem_append]
  have m5 : i.signal_strength = none →
      (⟨"signal_strength", .missingRequiredField⟩ : ValidationError) ∈ AlienContact.fieldErrors i := by
    intro h
    unfold AlienContact.fieldErrors
    simp [h, checkRequiredRat, List.mem_append]
  have m6 : i.duration_minutes = none →
      (⟨"duration_minutes", .missingRequiredField⟩ : ValidationError) ∈ AlienContact.fieldErrors i := by
    intro h
    unfold AlienContact.fieldErrors
    simp [h, checkRequiredInt, List.mem_append]
  have m7 : i.witness_count = none →
      (⟨"witness_count", .missingRequiredField⟩ : ValidationError) ∈ AlienContact.fieldErrors i := by
    intro h
    unfold AlienContact.fieldErrors
    simp [h, checkRequiredInt, List.mem_append]
  have hne : AlienContact.fieldErrors i ≠ [] := by
    rcases hmiss with h | h | h | h | h | h | h
    exacts [List.ne_nil_of_mem (m1 h), List.ne_nil_of_mem (m2 h), List.ne_nil_of_mem (m3 h),
      List.ne_nil_of_mem (m4 h), List.ne_nil_of_mem (m5 h), List.ne_nil_of_mem (m6 h),
      List.ne_nil_of_mem (m7 h)]
  exact ⟨AlienContact.fieldErrors i, AlienContact.validate_fieldsFail i hne,
    m1, m2, m3, m4, m5, m6, m7, fun e he => AlienContact.fieldErrors_no_rule i e he⟩

/-- Witness for C2 at the all-absent input. -/
theorem claim2_missing_field_short_circuits_rules_witness :
    emptyContact.contact_id = none ∧
    (∃ errs, AlienContact.validate emptyContact = .error errs ∧
      (emptyContact.contact_id = none → (⟨"contact_id", .missingRequiredField⟩ : ValidationError) ∈ errs) ∧
      (emptyContact.timestamp = none → (⟨"timestamp", .missingRequiredField⟩ : ValidationError) ∈ errs) ∧
      (emptyContact.location = none → (⟨"location", .missingRequiredField⟩ : ValidationError) ∈ errs) ∧
      (emptyContact.contact_type = none → (⟨"contact_type", .missingRequiredField⟩ : ValidationError) ∈ errs) ∧
      (emptyContact.signal_strength = none → (⟨"signal_strength", .missingRequiredField⟩ : ValidationError) ∈ errs) ∧
      (emptyContact.duration_minutes = none → (⟨"duration_minutes", .missingRequiredField⟩ : ValidationError) ∈ errs) ∧
      (emptyContact.witness_count = none → (⟨"witness_count", .missingRequiredField⟩ : ValidationError) ∈ errs) ∧
      (∀ e ∈ errs, e.kind.isRule = false)) :=
  ⟨rfl, claim2_missing_field_short_circuits_rules emptyContact (Or.inl rfl)⟩

/-- Claim C3: a `SpaceStation` input whose `crew_size` and `power_level`
each violate a bound while every other field is valid is reported with
exactly two errors, one located at each of the two offending fields. -/
theorem claim3_two_bound_violations_two_errors (sid nm : String) (c : Int) (p o : ℚ) (lm : Nat)
    (op : Option Bool) (nt : Option String)
    (hsid : 3 ≤ sid.length ∧ sid.length ≤ 10)
    (hnm : 1 ≤ nm.length ∧ nm.length ≤ 50)
    (hc : c < 1 ∨ 20 < c)
    (hp : p < 0 ∨ 100 < p)
    (ho : 0 ≤ o ∧ o ≤ 100)
    (hnt : ∀ s, nt = some s → s.length ≤ 200) :
    ∃ k1 k2, SpaceStation.validate ⟨some sid, some nm, some c, some p, some o, some lm, op, nt⟩ =
      .error [⟨"crew_size", .boundViolation k1⟩, ⟨"power_level", .boundViolation k2⟩] := by
  have hsidE := (checkRequiredStr_eq_nil "station_id" sid 3 10).mpr hsid
  have hnmE := (checkRequiredStr_eq_nil "name" nm 1 50).mpr hnm
  have hoE := (checkRequiredRat_eq_nil "oxygen_level" o 0 100).mpr ho
  have hntE := (checkOptionalStrMax_eq_nil "notes" nt 200).mpr hnt
  have hcE : ∃ k1, checkRequiredInt "crew_size" (some c) 1 20 =
      [⟨"crew_size", .boundViolation k1⟩] := by
    rcases hc with hc | hc
    · refine ⟨.min, ?_⟩
      simp only [checkRequiredInt]
      rw [if_pos hc, if_neg (by omega)]
      rfl
    · refine ⟨.max, ?_⟩
      simp only [checkRequiredInt]
      rw [if_neg (by omega), if_pos hc]
      rfl
  have hpE : ∃ k2, checkRequiredRat "power_level" (some p) 0 100 =
      [⟨"power_level", .boundViolation k2⟩] := by
    rcases hp with hp | hp
    · refine ⟨.min, ?_⟩
      simp only [checkRequiredRat]
      rw [if_pos hp, if_neg (by linarith)]
      rfl
    · refine ⟨.max, ?_⟩
      simp only [checkRequiredRat]
      rw [if_neg (by linarith), if_pos hp]
      rfl
  obtain ⟨k1, hk1⟩ := hcE
  obtain ⟨k2, hk2⟩ := hpE
  refine ⟨k1, k2, ?_⟩
  have hfe : SpaceStation.fieldErrors ⟨some sid, some nm, some c, some p, some o, some lm, op, nt⟩ =
      [⟨"crew_size", .boundViolation k1⟩, ⟨"power_level", .boundViolation k2⟩] := by
    unfold SpaceStation.fieldErrors
    simp only []
    rw [hsidE, hnmE, hk1, hk2, hoE, hntE, checkRequiredPresent_some]
    rfl
  rw [SpaceStation.validate_fieldsFail_station _ (by rw [hfe]; simp), hfe]

/-- Witness for C3: `crew_size = 23` and `power_level = 150`. -/
theorem claim3_two_bound_violations_two_errors_witness :
    (3 ≤ "ISS001".length ∧ "ISS001".length ≤ 10) ∧
    (1 ≤ "ISS".length ∧ "ISS".length ≤ 50) ∧
    ((23 : Int) < 1 ∨ (20 : Int) < 23) ∧
    ((150 : ℚ) < 0 ∨ (100 : ℚ) < 150) ∧
    ((0 : ℚ) ≤ 56 ∧ (56 : ℚ) ≤ 100) ∧
    (∀ s, (none : Option String) = some s → s.length ≤ 200) ∧
    (∃ k1 k2, SpaceStation.validate
        ⟨some "ISS001", some "ISS", some 23, some 150, some 56, some 0, none, none⟩ =
      .error [⟨"crew_size", .boundViolation k1⟩, ⟨"power_level", .boundViolation k2⟩]) :=
  ⟨by decide, by decide, Or.inr (by norm_num), Or.inr (by norm_num), by norm_num,
   by simp,
   claim3_two_bound_violations_two_errors "ISS001" "ISS" 23 150 56 0 none none
     (by decide) (by decide) (Or.inr (by norm_num)) (Or.inr (by norm_num))
     (by norm_num) (by simp)⟩

/-- Claim C4: soundness of acceptance — when every field of the coerced
record satisfies its declared constraints and every cross-field rule holds,
validation returns `Ok` with exactly the coerced record, for both the
`AlienContact` and `SpaceMission` schemas. -/
theorem claim4_soundness_of_acceptance :
    (∀ (i : AlienContactInput) (r : AlienContact),
        AlienContact.coerce i = some r → AlienContact.fieldOk r → AlienContact.rulesOk r →
        AlienContact.validate i = .ok r) ∧
    (∀ (i : SpaceMissionInput) (m : SpaceMission),
        SpaceMission.coerce i = some m → SpaceMission.fieldOk m → SpaceMission.rulesOk m →
        SpaceMission.validate i = .ok m) := by
  constructor
  · intro i r hc hfo hro
    have hf : AlienContact.fieldErrors i = [] := (AlienContact.fieldErrors_nil_iff i r hc).mpr hfo
    rw [AlienContact.validate_fieldsPass i r hf hc, (AlienContact.validate_rules_ok_iff r).mpr hro]
  · intro i m hc hfo hro
    have hf : SpaceMission.fieldErrors i = [] := (SpaceMission.fieldErrors_nil_iff_mission i m hc).mpr hfo
    rw [SpaceMission.validate_fieldsPass_mission i m hf hc, (SpaceMission.validate_rules_ok_iff_mission m).mpr hro]

/-- Witness for C4 at a fully-valid contact and a fully-valid mission. -/
theorem claim4_soundness_of_acceptance_witness :
    (AlienContact.coerce validContact = some validContactRec ∧
     AlienContact.fieldOk validContactRec ∧ AlienContact.rulesOk validContactRec ∧
     AlienContact.validate validContact = .ok validContactRec) ∧
    (SpaceMission.coerce shortMission = some shortMissionRec ∧
     SpaceMission.fieldOk shortMissionRec ∧ SpaceMission.rulesOk shortMissionRec ∧
     SpaceMission.validate shortMission = .ok shortMissionRec) :=
  ⟨⟨rfl, validContactRec_fieldOk, validContactRec_rulesOk,
    claim4_soundness_of_acceptance.1 validContact validContactRec rfl
      validContactRec_fieldOk validContactRec_rulesOk⟩,
   ⟨rfl, shortMissionRec_fieldOk, shortMissionRec_rulesOk,
    claim4_soundness_of_acceptance.2 shortMission shortMissionRec rfl
      shortMissionRec_fieldOk shortMissionRec_rulesOk⟩⟩

/-- Claim C5: validated-record invariant — every `AlienContact` that
validation returns satisfies all field constraints and all four cross-field
rules of its schema (prefix `AC`, physical implies verified, telepathic
implies at least 3 witnesses, strong signal implies a message). -/
theorem claim5_validated_record_invariant (i : AlienContactInput) (r : AlienContact)
    (h : AlienContact.validate i = .ok r) :
    AlienContact.fieldOk r ∧ AlienContact.rulesOk r := by
  obtain ⟨hf, hc, hr⟩ := AlienContact.validate_ok_inv i r h
  exact ⟨(AlienContact.fieldErrors_nil_iff i r hc).mp hf,
         (AlienContact.validate_rules_ok_iff r).mp hr⟩

/-- Witness for C5 at a fully-valid contact. -/
theorem claim5_validated_record_invariant_witness :
    AlienContact.validate validContact = .ok validContactRec ∧
    (AlienContact.fieldOk validContactRec ∧ AlienContact.rulesOk validContactRec) :=
  ⟨validContact_ok, claim5_validated_record_invariant validContact validContactRec validContact_ok⟩

/-- Claim C6: the identifier prefix rule is a strict character-prefix check:
`AC2024_001` — with all other fields valid and all other rules satisfied —
passes validation despite missing a separator after `AC`. -/
theorem claim6_literal_prefix_check :
    AlienContact.validate contactNoSep = .ok contactNoSepRec := by
  have hf : AlienContact.fieldErrors contactNoSep = [] := by
    norm_num [AlienContact.fieldErrors, contactNoSep, checkRequiredStr, checkRequiredPresent,
      checkRequiredRat, checkRequiredInt, checkOptionalStrMax]
    decide
  rw [AlienContact.validate_fieldsPass contactNoSep contactNoSepRec hf rfl]
  have hr : AlienContact.validate_rules contactNoSepRec = .ok contactNoSepRec := by
    norm_num [AlienContact.validate_rules, pyStartsWith, contactNoSepRec]
    simp +decide
  rw [hr]

/-- Claim C7: a field-valid 900-day mission with prefix and commander rules
satisfied and exactly 1 of 3 crew members having at least 5 years of
experience (one third, below the 50% cutoff under real division) is
reported with exactly one `BusinessRuleViolation` naming the
experience-threshold rule and zero field errors. -/
theorem claim7_experience_threshold_rule (i : SpaceMissionInput) (m : SpaceMission)
    (hf : SpaceMission.fieldErrors i = []) (hc : SpaceMission.coerce i = some m)
    (hp : pyStartsWith m.mission_id "M" = true)
    (hcm : m.crew.any (fun c => decide (c.rank = Rank.captain ∨ c.rank = Rank.commander)) = true)
    (hdur : m.duration_days = 900)
    (hlen : m.crew.length = 3)
    (hexp : m.crew.countP (fun c => decide (5 ≤ c.years_experience)) = 1) :
    SpaceMission.validate i =
      .error [⟨"", .businessRuleViolation "Long missions (> 365 days) need 50%experienced crew (5+ years)"⟩] := by
  have hpct : (m.crew.countP (fun c => decide (5 ≤ c.years_experience)) : ℚ) /
      (m.crew.length : ℚ) * 100 < 50 := by
    rw [hexp, hlen]
    norm_num
  rw [SpaceMission.validate_fieldsPass_mission i m hf hc,
      SpaceMission.validate_rules_err_experience m hp hcm (by rw [hdur]; norm_num) hpct]

/-- Witness for C7 at the concrete 900-day mission `longMission`. -/
theorem claim7_experience_threshold_rule_witness :
    SpaceMission.fieldErrors longMission = [] ∧
    SpaceMission.coerce longMission = some longMissionRec ∧
    pyStartsWith longMissionRec.mission_id "M" = true ∧
    longMissionRec.crew.any (fun c => decide (c.rank = Rank.captain ∨ c.rank = Rank.commander)) = true ∧
    longMissionRec.duration_days = 900 ∧
    longMissionRec.crew.length = 3 ∧
    longMissionRec.crew.countP (fun c => decide (5 ≤ c.years_experience)) = 1 ∧
    SpaceMission.validate longMission =
      .error [⟨"", .businessRuleViolation "Long missions (> 365 days) need 50%experienced crew (5+ years)"⟩] :=
  ⟨longMission_fieldErrors, rfl, by decide, by decide, rfl, rfl, by decide,
   claim7_experience_threshold_rule longMission longMissionRec longMission_fieldErrors rfl
     (by decide) (by decide) rfl rfl (by decide)⟩

/-- Claim C8: division safety — any input that passes the field stage has a
crew of length at least 1 (the collection minimum-length constraint), so
the divisor in the experienced-crew percentage is never zero. -/
theorem claim8_no_division_by_zero (i : SpaceMissionInput) (m : SpaceMission)
    (hf : SpaceMission.fieldErrors i = []) (hc : SpaceMission.coerce i = some m) :
    1 ≤ m.crew.length ∧ ((m.crew.length : ℚ) ≠ 0) := by
  have hok := (SpaceMission.fieldErrors_nil_iff_mission i m hc).mp hf
  obtain ⟨-, -, -, -, -, -, -, -, h9, -⟩ := hok
  exact ⟨h9, Nat.cast_ne_zero.mpr (by omega)⟩

/-- Witness for C8 at the concrete mission `longMission`. -/
theorem claim8_no_division_by_zero_witness :
    SpaceMission.fieldErrors longMission = [] ∧
    SpaceMission.coerce longMission = some longMissionRec ∧
    (1 ≤ longMissionRec.crew.length ∧ ((longMissionRec.crew.length : ℚ) ≠ 0)) :=
  ⟨longMission_fieldErrors, rfl,
   claim8_no_division_by_zero longMission longMissionRec longMission_fieldErrors rfl⟩

/-- Claim C9: validation is idempotent on accepted values — re-validating
the canonical raw value of a validated record yields `Ok` with the same
record. -/
theorem claim9_validation_idempotent (i : AlienContactInput) (r : AlienContact)
    (h : AlienContact.validate i = .ok r) :
    AlienContact.validate (AlienContact.toRaw r) = .ok r := by
  obtain ⟨hf, hc, hr⟩ := AlienContact.validate_ok_inv i r h
  have hfo : AlienContact.fieldOk r := (AlienContact.fieldErrors_nil_iff i r hc).mp hf
  have hf2 : AlienContact.fieldErrors (AlienContact.toRaw r) = [] :=
    (AlienContact.fieldErrors_nil_iff (AlienContact.toRaw r) r (AlienContact.coerce_toRaw r)).mpr hfo
  rw [AlienContact.validate_fieldsPass (AlienContact.toRaw r) r hf2 (AlienContact.coerce_toRaw r), hr]

/-- Witness for C9 at a fully-valid contact. -/
theorem claim9_validation_idempotent_witness :
    AlienContact.validate validContact = .ok validContactRec ∧
    AlienContact.validate (AlienContact.toRaw validContactRec) = .ok validContactRec :=
  ⟨validContact_ok, claim9_validation_idempotent validContact validContactRec validContact_ok⟩

/-- Claim C10: the long-mission cutoff is strict — a field-valid mission
whose identifier starts with `M`, with a captain or commander aboard and
every member active, and whose duration is at most 365 days, validates to
`Ok` regardless of the crew's experience fraction. -/
theorem claim10_long_mission_cutoff_boundary (i : SpaceMissionInput) (m : SpaceMission)
    (hf : SpaceMission.fieldErrors i = []) (hc : SpaceMission.coerce i = some m)
    (hp : pyStartsWith m.mission_id "M" = true)
    (hcm : ∃ c ∈ m.crew, c.rank = Rank.captain ∨ c.rank = Rank.commander)
    (hac : ∀ c ∈ m.crew, c.is_active = true)
    (hd : m.duration_days ≤ 365) :
    SpaceMission.validate i = .ok m := by
  have hro : SpaceMission.rulesOk m :=
    ⟨hp, hcm, fun hgt => absurd hd (not_le.mpr hgt), hac⟩
  rw [SpaceMission.validate_fieldsPass_mission i m hf hc, (SpaceMission.validate_rules_ok_iff_mission m).mpr hro]

/-- Witness for C10 at the 365-day mission `shortMission`, whose crew has
nobody with 5 or more years of experience. -/
theorem claim10_long_mission_cutoff_boundary_witness :
    SpaceMission.fieldErrors shortMission = [] ∧
    SpaceMission.coerce shortMission = some shortMissionRec ∧
    pyStartsWith shortMissionRec.mission_id "M" = true ∧
    (∃ c ∈ shortMissionRec.crew, c.rank = Rank.captain ∨ c.rank = Rank.commander) ∧
    (∀ c ∈ shortMissionRec.crew, c.is_active = true) ∧
    shortMissionRec.duration_days ≤ 365 ∧
    SpaceMission.validate shortMission = .ok shortMissionRec :=
  ⟨shortMission_fieldErrors, rfl, by decide, by decide, by decide, by decide,
   claim10_long_mission_cutoff_boundary shortMission shortMissionRec shortMission_fieldErrors
     rfl (by decide) (by decide) (by decide) (by decide)⟩

end PyValidate
